import Mathlib

/-!
Verification development for the Pokemon sealed-collection tracker's
Portfolio Recompilation Engine (`portfolio_recompiler.py`, `database.py`).

Modelling conventions:
* Money is modelled as exact rationals (ℚ); the source uses Python floats
  fed through `Decimal(str(x)).quantize(Decimal('0.01'), ROUND_HALF_UP)`,
  which on in-range decimal inputs is exact half-away-from-zero rounding
  to cents.
* Dates are day indices (ℕ); only their ordering matters to the engine.
* A ledger is a list of transactions, in the `ORDER BY transaction_date,
  created_at` order produced by `get_all_transactions`.
* Nullable SQL columns become `Option ℚ`; pandas' NaN-skipping `sum` is
  modelled by letting a null term contribute 0 to the sum.
-/

namespace PokemonTracker

/-- The `transaction_type` column: CHECK (transaction_type IN ('BUY','SELL','OPEN')). -/
inductive TxType where
  | BUY : TxType
  | SELL : TxType
  | OPEN : TxType
deriving DecidableEq, Repr

/-- One row of the `transactions` table, restricted to the columns the
recompiler reads.  `price_per_unit` and `total_amount` are nullable. -/
structure Tx where
  product_id : ℕ
  product_name : String
  transaction_type : TxType
  quantity : ℕ
  price_per_unit : Option ℚ
  total_amount : Option ℚ
  transaction_date : ℕ
deriving DecidableEq, Repr

/-- Function `round_price` (portfolio_recompiler.py:15-19): round to 2 decimal places,
`ROUND_HALF_UP`, i.e. ties away from zero. -/
def round_price (x : ℚ) : ℚ :=
  if 0 ≤ x then (⌊x * 100 + 1/2⌋ : ℚ) / 100
  else -((⌊-(x * 100) + 1/2⌋ : ℚ) / 100)

/-- Transactions with `transaction_date ≤ cutoff`
(portfolio_recompiler.py:80-83). -/
def relevantTxs (ledger : List Tx) (cutoff : ℕ) : List Tx :=
  ledger.filter (fun t => t.transaction_date ≤ cutoff)

/-- The relevant transactions of one product (portfolio_recompiler.py:89-91). -/
def productTxs (ledger : List Tx) (cutoff : ℕ) (pid : ℕ) : List Tx :=
  (relevantTxs ledger cutoff).filter (fun t => t.product_id = pid)

/-- The distinct product ids appearing among the relevant transactions, in
first-occurrence order (pandas `.unique()`, portfolio_recompiler.py:87). -/
def holdingsKeys (ledger : List Tx) (cutoff : ℕ) : List ℕ :=
  ((relevantTxs ledger cutoff).map (fun t => t.product_id)).dedup

/-- Per-row term of `bought['total_amount'].fillna(bought['quantity'] *
bought['price_per_unit']).sum()` (portfolio_recompiler.py:111-112): the
row's `total_amount` when present, else `quantity * price_per_unit`; a row
where both are null is a NaN which the pandas sum skips (contributes 0). -/
def amountOf (t : Tx) : ℚ :=
  match t.total_amount with
  | some a => a
  | none =>
    match t.price_per_unit with
    | some p => (t.quantity : ℚ) * p
    | none => 0

/-- Per-row term of `(bought['quantity'] * bought['price_per_unit']).sum()`
(portfolio_recompiler.py:115); a null price is a NaN skipped by the sum. -/
def costOf (t : Tx) : ℚ :=
  match t.price_per_unit with
  | some p => (t.quantity : ℚ) * p
  | none => 0

/-- One value of the holdings dictionary built by
`calculate_holdings_at_date` (portfolio_recompiler.py:121-132). -/
structure Holding where
  product_name : String
  cost_basis_quantity : ℤ
  sealed_quantity : ℤ
  total_cost_basis : ℚ
  average_cost_per_unit : ℚ
  total_bought : ℕ
  total_sold : ℕ
  total_opened : ℕ
deriving DecidableEq, Repr

/-- The holdings entry `calculate_holdings_at_date` computes for one product
(portfolio_recompiler.py:93-132).  `total_cost_basis = buy_amount -
sell_amount` (net-proceeds model), `average_cost_per_unit` is the
acquisition-only average, both rounded to cents before storage. -/
def holdingFor (ledger : List Tx) (cutoff : ℕ) (pid : ℕ) : Holding :=
  let txs := productTxs ledger cutoff pid
  let bought := txs.filter (fun t => t.transaction_type = TxType.BUY)
  let sold := txs.filter (fun t => t.transaction_type = TxType.SELL)
  let opened := txs.filter (fun t => t.transaction_type = TxType.OPEN)
  let total_bought : ℕ := (bought.map (fun t => t.quantity)).sum
  let total_sold : ℕ := (sold.map (fun t => t.quantity)).sum
  let total_opened : ℕ := (opened.map (fun t => t.quantity)).sum
  let buy_amount := (bought.map amountOf).sum
  let sell_amount := (sold.map amountOf).sum
  let buy_cost := (bought.map costOf).sum
  let avg_purchase_cost := if 0 < total_bought then buy_cost / (total_bought : ℚ) else 0
  { product_name := (txs.head?.map (fun t => t.product_name)).getD ""
    cost_basis_quantity := (total_bought : ℤ) - (total_sold : ℤ)
    sealed_quantity := (total_bought : ℤ) - (total_sold : ℤ) - (total_opened : ℤ)
    total_cost_basis := round_price (buy_amount - sell_amount)
    average_cost_per_unit := round_price avg_purchase_cost
    total_bought := total_bought
    total_sold := total_sold
    total_opened := total_opened }

/-- Function `calculate_holdings_at_date` (portfolio_recompiler.py:77-134): the
holdings dictionary, as an association list keyed in pandas `.unique()`
order.  The function has no failure path: it returns whatever quantities
the sums produce, negative values included. -/
def calculate_holdings_at_date (ledger : List Tx) (cutoff : ℕ) :
    List (ℕ × Holding) :=
  (holdingsKeys ledger cutoff).map (fun pid => (pid, holdingFor ledger cutoff pid))

/-- The Scenario A-C ledger: BUY 10 @ $5 on day 1 (2024-01-01),
SELL 4 @ $8 on day 10 (2024-01-10), OPEN 2 on day 15 (2024-01-15).
`add_transaction` (database.py:73-75) stores `total_amount =
quantity * price_per_unit`. -/
def scenLedger : List Tx :=
  [ { product_id := 1, product_name := "Booster Box", transaction_type := TxType.BUY,
      quantity := 10, price_per_unit := some 5, total_amount := some 50,
      transaction_date := 1 },
    { product_id := 1, product_name := "Booster Box", transaction_type := TxType.SELL,
      quantity := 4, price_per_unit := some 8, total_amount := some 32,
      transaction_date := 10 },
    { product_id := 1, product_name := "Booster Box", transaction_type := TxType.OPEN,
      quantity := 2, price_per_unit := none, total_amount := none,
      transaction_date := 15 } ]

/-- One row of a daily-price parquet file: `productId` and `marketPrice`
(null market price = NaN, `pd.notna` false). -/
structure PriceRow where
  productId : ℕ
  marketPrice : Option ℚ
deriving DecidableEq, Repr

/-- State of the parquet file `market_prices_<date>.parquet`: absent
(FileNotFoundError), unreadable (`pd.read_parquet` raises), or a table.
The two Booleans record whether the `productId` / `marketPrice` columns
exist; accessing a missing column raises a KeyError. -/
inductive ParquetFile where
  | missing : ParquetFile
  | corrupt : ParquetFile
  | table : Bool → Bool → List PriceRow → ParquetFile
deriving DecidableEq, Repr

/-- The `daily_prices` directory: date-keyed files. -/
structure PStore where
  files : List (ℕ × ParquetFile)
deriving DecidableEq, Repr

/-- Read the file for a date; no listed entry means no file on disk. -/
def PStore.lookup (s : PStore) (d : ℕ) : ParquetFile :=
  match s.files.find? (fun e => e.1 = d) with
  | some e => e.2
  | none => ParquetFile.missing

/-- Sorted insertion keeping the list duplicate-free: building block for
`sorted(set(...))`. -/
def insertSortedU (x : ℕ) : List ℕ → List ℕ
  | [] => [x]
  | y :: ys =>
    if x < y then x :: y :: ys
    else if x = y then y :: ys
    else y :: insertSortedU x ys

/-- Python `sorted(set(l))`. -/
def sortedDedup (l : List ℕ) : List ℕ :=
  l.foldr insertSortedU []

/-- Function `get_available_price_dates` (portfolio_recompiler.py:62-75): the sorted
dates for which a `market_prices_*.parquet` file exists (readable or not). -/
def PStore.dates (s : PStore) : List ℕ :=
  sortedDedup (s.files.map (fun e => e.1))

/-- The body of `get_market_price` (portfolio_recompiler.py:41-60) before
its catch-all handler, as a fallible computation.  Errors: missing file,
unreadable file, missing `productId` column (KeyError on the filter),
missing `marketPrice` column (KeyError on the matched row). -/
def get_market_priceE (s : PStore) (pid : ℕ) (d : ℕ) : Except String (Option ℚ) :=
  match s.lookup d with
  | ParquetFile.missing => Except.error "FileNotFoundError"
  | ParquetFile.corrupt => Except.error "pd.read_parquet failed"
  | ParquetFile.table hasPid hasPrice rows =>
    if hasPid = false then Except.error "KeyError: productId"
    else
      match rows.filter (fun r => r.productId = pid) with
      | [] => Except.ok none
      | r :: _ =>
        if hasPrice = false then Except.error "KeyError: marketPrice"
        else
          match r.marketPrice with
          | none => Except.ok none
          | some p => Except.ok (some p)

/-- Function `get_market_price` (portfolio_recompiler.py:41-60): the whole body is
wrapped in `try/except (FileNotFoundError, Exception): pass; return None`,
so every failure collapses to `None`. -/
def get_market_price (s : PStore) (pid : ℕ) (d : ℕ) : Option ℚ :=
  match get_market_priceE s pid d with
  | Except.ok r => r
  | Except.error _ => none

/-- First successful `get_market_price` along a list of dates: the inner
loop of the price fallback (portfolio_recompiler.py:297-303). -/
def fallbackPrice (s : PStore) (pid : ℕ) : List ℕ → Option ℚ
  | [] => none
  | d :: rest =>
    match get_market_price s pid d with
    | some p => some p
    | none => fallbackPrice s pid rest

/-- The evaluation date axis of `recalculate_daily_portfolio_values`
(portfolio_recompiler.py:197-236): price-file dates ∪ transaction dates ∪
{today}, sorted, restricted to dates ≥ the earliest transaction date.
(The source's `insert(0, earliest)` branch and the empty-after-filter
fallback are unreachable when the ledger is non-empty, because every
transaction date — the earliest included — is already in the combined
set and survives the filter.) -/
def buildAxis (s : PStore) (ledger : List Tx) (today : ℕ) : List ℕ :=
  match (ledger.map (fun t => t.transaction_date)).min? with
  | none => sortedDedup (s.dates ++ ledger.map (fun t => t.transaction_date) ++ [today])
  | some e =>
    if e ∈ (sortedDedup (s.dates ++ ledger.map (fun t => t.transaction_date) ++ [today])).filter
        (fun d => e ≤ d) then
      (sortedDedup (s.dates ++ ledger.map (fun t => t.transaction_date) ++ [today])).filter
        (fun d => e ≤ d)
    else
      e :: (sortedDedup (s.dates ++ ledger.map (fun t => t.transaction_date) ++ [today])).filter
        (fun d => e ≤ d)

/-- The market price used for one product on one date
(portfolio_recompiler.py:293-303): the date's own price if present, else —
only when `sealed_quantity > 0` — the first non-null price scanning the
axis dates `≤ d` in reverse (descending) order.  The first scanned date is
`d` itself, which deterministically yields `None` again, so the scan
effectively covers axis dates `< d`. -/
def resolvedPrice (s : PStore) (axis : List ℕ) (pid : ℕ) (d : ℕ)
    (sealedPos : Bool) : Option ℚ :=
  match get_market_price s pid d with
  | some p => some p
  | none =>
    if sealedPos then fallbackPrice s pid ((axis.filter (fun d2 => d2 ≤ d)).reverse)
    else none

/-- One product's contribution to `total_market_value`
(portfolio_recompiler.py:305-306): `sealed_qty * market_price` when the
resolved price is non-null and `sealed_qty > 0`.  (The source's truthiness
test `if market_price` also skips a price of exactly 0, which adds 0
either way.) -/
def mvContrib (s : PStore) (axis : List ℕ) (d : ℕ) (pid : ℕ) (sealed : ℤ) : ℚ :=
  match resolvedPrice s axis pid d (decide (0 < sealed)) with
  | some p => if 0 < sealed then (sealed : ℚ) * p else 0
  | none => 0

/-- The `total_cost_basis` accumulated on one date
(portfolio_recompiler.py:284-290): the sum of the per-product **rounded**
cost bases over the holdings dictionary. -/
def totalCostBasisAt (ledger : List Tx) (d : ℕ) : ℚ :=
  ((holdingsKeys ledger d).map (fun pid => (holdingFor ledger d pid).total_cost_basis)).sum

/-- The `total_market_value` accumulated on one date
(portfolio_recompiler.py:285-306). -/
def totalMarketValueAt (ledger : List Tx) (s : PStore) (axis : List ℕ) (d : ℕ) : ℚ :=
  ((holdingsKeys ledger d).map
    (fun pid => mvContrib s axis d pid (holdingFor ledger d pid).sealed_quantity)).sum

/-- The `proceeds` of one SELL row (portfolio_recompiler.py:337): `total_amount`
when non-null, else `quantity * price_per_unit`.  (When both are null the
source produces a float NaN rather than a number; the well-formedness
hypotheses used below exclude that case.) -/
def proceedsOf (t : Tx) : ℚ :=
  match t.total_amount with
  | some a => a
  | none => (t.quantity : ℚ) * (t.price_per_unit.getD 0)

/-- The BUY rows of a product dated `≤ d` (portfolio_recompiler.py:340):
exactly the rows the realized-P&L average cost is computed from. -/
def priorBuys (ledger : List Tx) (d : ℕ) (pid : ℕ) : List Tx :=
  ledger.filter
    (fun t => t.product_id = pid ∧ t.transaction_type = TxType.BUY ∧ t.transaction_date ≤ d)

/-- The `avg_cost` at a sale (portfolio_recompiler.py:340-343): acquisition-only
average — BUY rows of the product dated `≤ d`, total `quantity *
price_per_unit` cost over total quantity; 0 when nothing was bought. -/
def avgCostAtSale (ledger : List Tx) (d : ℕ) (pid : ℕ) : ℚ :=
  let prior_buys := priorBuys ledger d pid
  let total_buy_qty : ℕ := (prior_buys.map (fun t => t.quantity)).sum
  let total_buy_cost := (prior_buys.map costOf).sum
  if 0 < total_buy_qty then total_buy_cost / (total_buy_qty : ℚ) else 0

/-- Realized P&L added to `cumulative_realized_pnl` on one date
(portfolio_recompiler.py:327-349): over the SELL rows dated exactly `d`,
`proceeds - quantity * avg_cost`. -/
def realizedOnDate (ledger : List Tx) (d : ℕ) : ℚ :=
  ((ledger.filter (fun t => t.transaction_date = d ∧ t.transaction_type = TxType.SELL)).map
    (fun t => proceedsOf t - (t.quantity : ℚ) * avgCostAtSale ledger d t.product_id)).sum

/-- One row of the `daily_portfolio_value` table
(portfolio_recompiler.py:355-365); every amount is rounded at storage. -/
structure DailyRow where
  date : ℕ
  total_cost_basis : ℚ
  total_market_value : ℚ
  unrealized_pnl : ℚ
  cumulative_realized_pnl : ℚ
deriving DecidableEq, Repr

/-- The row inserted for one date, given the unrounded cumulative realized
P&L carried into it (portfolio_recompiler.py:351-365).  `unrealized_pnl`
is computed from the **unrounded** market value and the per-product-rounded
cost-basis sum, then rounded. -/
def mkRow (ledger : List Tx) (s : PStore) (axis : List ℕ) (d : ℕ) (cum : ℚ) : DailyRow :=
  let cb := totalCostBasisAt ledger d
  let mv := totalMarketValueAt ledger s axis d
  { date := d
    total_cost_basis := round_price cb
    total_market_value := round_price mv
    unrealized_pnl := round_price (mv - cb)
    cumulative_realized_pnl := round_price cum }

/-- The per-date loop of `recalculate_daily_portfolio_values`
(portfolio_recompiler.py:277-369): fold over the axis carrying the
unrounded cumulative realized P&L. -/
def dailyRowsAux (ledger : List Tx) (s : PStore) (axis : List ℕ) :
    List ℕ → ℚ → List DailyRow
  | [], _ => []
  | d :: rest, cum =>
    let cum2 := cum + realizedOnDate ledger d
    mkRow ledger s axis d cum2 :: dailyRowsAux ledger s axis rest cum2

/-- The full `daily_portfolio_value` series produced by
`recalculate_daily_portfolio_values` for a non-empty ledger. -/
def dailyRows (ledger : List Tx) (s : PStore) (today : ℕ) : List DailyRow :=
  let axis := buildAxis s ledger today
  dailyRowsAux ledger s axis axis 0

/-- Query `SELECT ... ORDER BY date DESC LIMIT 1` over the stored rows
(portfolio_recompiler.py:398-403): the row of maximal date. -/
def latestRow? : List DailyRow → Option DailyRow
  | [] => none
  | r :: rs =>
    match latestRow? rs with
    | none => some r
    | some m => some (if m.date < r.date then r else m)

/-- The summary dictionary of `get_portfolio_summary`
(portfolio_recompiler.py:379-418): product count / quantity / cost basis
are summed from the holdings table over rows with `current_quantity > 0`
(the table stores `sealed_quantity` as `current_quantity`,
portfolio_recompiler.py:173); market value and unrealized P&L are read
from the latest daily row (0 when absent). -/
structure Summary where
  total_products : ℕ
  total_quantity : ℤ
  total_cost_basis : ℚ
  current_market_value : ℚ
  unrealized_pnl : ℚ
deriving DecidableEq, Repr

/-- Function `get_portfolio_summary` as observed after `recompile_all`
(portfolio_recompiler.py:420-452): the holdings table holds
`calculate_holdings_at_date(ledger, today)`, the daily table holds
`dailyRows`. -/
def get_portfolio_summary (ledger : List Tx) (s : PStore) (today : ℕ) : Summary :=
  let hrows := (calculate_holdings_at_date ledger today).filter
    (fun pr => 0 < pr.2.sealed_quantity)
  let latest := latestRow? (dailyRows ledger s today)
  { total_products := hrows.length
    total_quantity := (hrows.map (fun pr => pr.2.sealed_quantity)).sum
    total_cost_basis := (hrows.map (fun pr => pr.2.total_cost_basis)).sum
    current_market_value := (latest.map (fun r => r.total_market_value)).getD 0
    unrealized_pnl := (latest.map (fun r => r.unrealized_pnl)).getD 0 }

/-- Formalisation of the spec sentence (spec §4.1): `average_cost_per_unit =
acquire_amount / total_acquired if total_acquired > 0, else 0`, where
`acquire_amount` sums `total_amount` (falling back to `quantity ×
unit_price`) over the acquisitions up to the date.  Stated from the spec's
words, for comparison with the source's `avgCostAtSale`. -/
def spec_avg_cost (ledger : List Tx) (d : ℕ) (pid : ℕ) : ℚ :=
  let buys := priorBuys ledger d pid
  let q : ℕ := (buys.map (fun t => t.quantity)).sum
  let amt := (buys.map amountOf).sum
  if 0 < q then amt / (q : ℚ) else 0

/-- The data-model invariant of spec §3 for rows carrying money: ACQUIRE and
DISPOSE entries have a unit price, and `total_amount`, when present, equals
`quantity × unit_price`. -/
def WFAmounts (ledger : List Tx) : Prop :=
  ∀ t ∈ ledger, (t.transaction_type = TxType.BUY ∨ t.transaction_type = TxType.SELL) →
    ∃ p, t.price_per_unit = some p ∧
      (t.total_amount = none ∨ t.total_amount = some ((t.quantity : ℚ) * p))

/-- Formalisation of the claim's words for C7: look up the exact date, else
scan the **price-snapshot-store dates** strictly less than the date in
descending order and return the first non-null price. -/
def spec_priceOn (s : PStore) (pid : ℕ) (d : ℕ) : Option ℚ :=
  match get_market_price s pid d with
  | some p => some p
  | none => fallbackPrice s pid ((s.dates.filter (fun d2 => d2 < d)).reverse)

/-- The cost-basis formula of `TransactionDatabase.update_portfolio_holdings`
(database.py:144-163), over all of one product's non-deleted transactions:
`total_cost_basis = current_quantity × average_purchase_cost` when
`current_quantity > 0`, else 0, with `current_quantity = bought - sold -
opened` and the acquisition-only average cost. -/
def update_portfolio_holdings_cost_basis (txs : List Tx) : ℚ :=
  let bought := txs.filter (fun t => t.transaction_type = TxType.BUY)
  let sold := txs.filter (fun t => t.transaction_type = TxType.SELL)
  let opened := txs.filter (fun t => t.transaction_type = TxType.OPEN)
  let total_bought : ℕ := (bought.map (fun t => t.quantity)).sum
  let total_sold : ℕ := (sold.map (fun t => t.quantity)).sum
  let total_opened : ℕ := (opened.map (fun t => t.quantity)).sum
  let current_quantity : ℤ := (total_bought : ℤ) - (total_sold : ℤ) - (total_opened : ℤ)
  let buy_cost := (bought.map costOf).sum
  let avg_purchase_cost := if 0 < total_bought then buy_cost / (total_bought : ℚ) else 0
  if 0 < current_quantity then (current_quantity : ℚ) * avg_purchase_cost else 0

/-! ### Raw ledger layer

`recalculate_daily_portfolio_values` reads the transactions table through
pandas; an amount cell can hold a value that is not a number (SQLite does
not enforce the DECIMAL declarations).  `RawVal` models such a cell: a
number, NULL, or unparsable text. -/

/-- A raw amount cell: number, SQL NULL, or text that `float()` rejects. -/
inductive RawVal where
  | null : RawVal
  | num : ℚ → RawVal
  | text : String → RawVal
deriving DecidableEq, Repr

/-- A raw transactions-table row (amount columns uninterpreted). -/
structure RawTx where
  product_id : ℕ
  product_name : String
  transaction_type : TxType
  quantity : ℕ
  price_per_unit : RawVal
  total_amount : RawVal
  transaction_date : ℕ
deriving DecidableEq, Repr

def RawVal.isText : RawVal → Bool
  | RawVal.text _ => true
  | _ => false

def RawVal.isNull : RawVal → Bool
  | RawVal.null => true
  | _ => false

/-- Numeric reading of a raw cell (text unreadable → none). -/
def RawVal.toOpt : RawVal → Option ℚ
  | RawVal.null => none
  | RawVal.num q => some q
  | RawVal.text _ => none

/-- The clean transaction a raw row denotes once its cells parse. -/
def RawTx.toTx (t : RawTx) : Tx :=
  { product_id := t.product_id
    product_name := t.product_name
    transaction_type := t.transaction_type
    quantity := t.quantity
    price_per_unit := t.price_per_unit.toOpt
    total_amount := t.total_amount.toOpt
    transaction_date := t.transaction_date }

/-- Whether a raw row makes `calculate_holdings_at_date` raise once the row
is inside the cutoff window.  Mapping to the source:
* BUY, text `total_amount`: `float(bought['total_amount'].fillna(...).sum())`
  (line 111) raises — `float` on the text itself, or a mixed-type pandas sum.
* BUY, text `price_per_unit`: `float((bought['quantity'] *
  bought['price_per_unit']).sum())` (line 115) raises.
* SELL, text `total_amount`: line 112 raises as for BUY.
* SELL, NULL `total_amount` with text `price_per_unit`: the `fillna`
  fallback `quantity * price_per_unit` puts an unparsable value into the
  sum of line 112, which `float` then rejects.
* OPEN rows: their amount columns are never summed — no failure. -/
def RawTx.corruptAmount (t : RawTx) : Bool :=
  match t.transaction_type with
  | TxType.BUY => t.total_amount.isText || t.price_per_unit.isText
  | TxType.SELL => t.total_amount.isText || (t.total_amount.isNull && t.price_per_unit.isText)
  | TxType.OPEN => false

/-- The holdings computation on one date, reduced to its failure behaviour:
`calculate_holdings_at_date` (called **outside** any exception handler at
portfolio_recompiler.py:283) raises exactly when some BUY/SELL row inside
the window has an unreadable amount. -/
def rawCheckAt (ledger : List RawTx) (cutoff : ℕ) : Except String Unit :=
  if (ledger.filter (fun t => t.transaction_date ≤ cutoff)).any RawTx.corruptAmount
  then Except.error "could not convert string to float"
  else Except.ok ()

/-- The per-date loop of `recalculate_daily_portfolio_values` over a raw
ledger.  A failure of the unwrapped holdings computation propagates; the
single enclosing database transaction is committed only after the loop
(portfolio_recompiler.py:371), so on failure every row written so far is
rolled back — an error therefore carries no rows at all.  (The realized-P&L
and per-item-history blocks sit inside `try/except: pass`, but on rows
whose amounts the holdings computation could read they do not raise.) -/
def rawPassGo (rledger : List RawTx) (cl : List Tx) (s : PStore) (axis : List ℕ) :
    List ℕ → ℚ → Except String (List DailyRow)
  | [], _ => Except.ok []
  | d :: rest, cum =>
    match rawCheckAt rledger d with
    | Except.error e => Except.error e
    | Except.ok _ =>
      let cum2 := cum + realizedOnDate cl d
      match rawPassGo rledger cl s axis rest cum2 with
      | Except.error e => Except.error e
      | Except.ok rows => Except.ok (mkRow cl s axis d cum2 :: rows)

/-- Function `recalculate_daily_portfolio_values` over a raw ledger: either the full
series, or the error that aborted the pass (with nothing committed). -/
def rawDailyPassE (rledger : List RawTx) (s : PStore) (today : ℕ) :
    Except String (List DailyRow) :=
  let cl := rledger.map RawTx.toTx
  let axis := buildAxis s cl today
  rawPassGo rledger cl s axis axis 0

/-! ### Concrete inputs used by counterexamples and witnesses -/

/-- A ledger whose only entry disposes 5 units that were never acquired. -/
def overSellLedger : List Tx :=
  [ { product_id := 1, product_name := "X", transaction_type := TxType.SELL,
      quantity := 5, price_per_unit := some 1, total_amount := some 5,
      transaction_date := 1 } ]

/-- An empty price store. -/
def emptyStore : PStore := ⟨[]⟩

/-- BUY 2 @ $5 and OPEN 2 on day 1: cost basis $10 but zero sealed units. -/
def openedOutLedger : List Tx :=
  [ { product_id := 1, product_name := "X", transaction_type := TxType.BUY,
      quantity := 2, price_per_unit := some 5, total_amount := some 10,
      transaction_date := 1 },
    { product_id := 1, product_name := "X", transaction_type := TxType.OPEN,
      quantity := 2, price_per_unit := none, total_amount := none,
      transaction_date := 1 } ]

/-- BUY 1 unit for $0.01 on day 1. -/
def centLedger : List Tx :=
  [ { product_id := 1, product_name := "X", transaction_type := TxType.BUY,
      quantity := 1, price_per_unit := some (1/100), total_amount := some (1/100),
      transaction_date := 1 } ]

/-- Day-1 snapshot pricing product 1 at half a cent. -/
def halfCentStore : PStore :=
  ⟨[(1, ParquetFile.table true true [⟨1, some (1/200)⟩])]⟩

/-- A snapshot on day 1 only (price $5 for product 1). -/
def day1Store : PStore :=
  ⟨[(1, ParquetFile.table true true [⟨1, some 5⟩])]⟩

/-- First transaction on day 2: the day-1 snapshot predates first ownership. -/
def day2Ledger : List Tx :=
  [ { product_id := 1, product_name := "X", transaction_type := TxType.BUY,
      quantity := 1, price_per_unit := some 5, total_amount := some 5,
      transaction_date := 2 } ]

/-- Snapshots on day 1 ($7) and day 3 ($9) but not day 2. -/
def gapStore : PStore :=
  ⟨[(1, ParquetFile.table true true [⟨1, some 7⟩]),
    (3, ParquetFile.table true true [⟨1, some 9⟩])]⟩

/-- BUY 2 on day 1, SELL 1 on day 2 — so day 2 is on the axis and holds one
sealed unit. -/
def gapLedger : List Tx :=
  [ { product_id := 1, product_name := "X", transaction_type := TxType.BUY,
      quantity := 2, price_per_unit := some 5, total_amount := some 10,
      transaction_date := 1 },
    { product_id := 1, product_name := "X", transaction_type := TxType.SELL,
      quantity := 1, price_per_unit := some 6, total_amount := some 6,
      transaction_date := 2 } ]

/-- BUY 10 @ $5 then SELL 4 @ $8: a partial disposal at a price different
from the average purchase cost. -/
def partialSaleLedger : List Tx :=
  [ { product_id := 1, product_name := "X", transaction_type := TxType.BUY,
      quantity := 10, price_per_unit := some 5, total_amount := some 50,
      transaction_date := 1 },
    { product_id := 1, product_name := "X", transaction_type := TxType.SELL,
      quantity := 4, price_per_unit := some 8, total_amount := some 32,
      transaction_date := 2 } ]

/-- A clean raw ledger: BUY 1 @ $5 on day 1. -/
def cleanRawLedger : List RawTx :=
  [ { product_id := 1, product_name := "X", transaction_type := TxType.BUY,
      quantity := 1, price_per_unit := RawVal.num 5, total_amount := RawVal.num 5,
      transaction_date := 1 } ]

/-- A raw ledger whose SELL row's `total_amount` cell is unparsable text. -/
def corruptRawLedger : List RawTx :=
  [ { product_id := 1, product_name := "X", transaction_type := TxType.BUY,
      quantity := 1, price_per_unit := RawVal.num 5, total_amount := RawVal.num 5,
      transaction_date := 1 },
    { product_id := 1, product_name := "X", transaction_type := TxType.SELL,
      quantity := 1, price_per_unit := RawVal.num 8, total_amount := RawVal.text "abc",
      transaction_date := 2 } ]

/-- A price store whose day-1 file exists but cannot be read. -/
def corruptFileStore : PStore := ⟨[(1, ParquetFile.corrupt)]⟩

/-! ## Helper lemmas -/

theorem round_price_cents (k : ℤ) : round_price ((k : ℚ) / 100) = (k : ℚ) / 100 := by
  unfold round_price
  have h100 : (100 : ℚ) ≠ 0 := by norm_num
  have hmul : (k : ℚ) / 100 * 100 = (k : ℚ) := div_mul_cancel₀ _ h100
  have hfl : ∀ z : ℤ, ⌊(z : ℚ) + 1/2⌋ = z := by
    intro z
    rw [add_comm, Int.floor_add_int]
    norm_num
  by_cases hk : 0 ≤ (k : ℚ) / 100
  · rw [if_pos hk, hmul, hfl]
  · rw [if_neg hk, hmul]
    have : -(k : ℚ) = ((-k : ℤ) : ℚ) := by push_cast; ring
    rw [this, hfl]
    push_cast
    ring

theorem round_price_eq_cents (x : ℚ) : ∃ k : ℤ, round_price x = (k : ℚ) / 100 := by
  unfold round_price
  by_cases hx : 0 ≤ x
  · exact ⟨⌊x * 100 + 1/2⌋, by rw [if_pos hx]⟩
  · exact ⟨-⌊-(x * 100) + 1/2⌋, by rw [if_neg hx]; push_cast; ring⟩

theorem round_price_sub_cents (x : ℚ) (k : ℤ) (h1 : 0 ≤ x) (h2 : (k : ℚ) / 100 ≤ x) :
    round_price (x - (k : ℚ) / 100) = round_price x - (k : ℚ) / 100 := by
  unfold round_price
  rw [if_pos (by linarith), if_pos h1]
  have : (x - (k : ℚ) / 100) * 100 + 1/2 = (x * 100 + 1/2) + (-k : ℤ) := by
    push_cast; ring
  rw [this, Int.floor_add_int]
  push_cast
  ring

theorem sum_cents (l : List ℚ) (h : ∀ x ∈ l, ∃ k : ℤ, x = (k : ℚ) / 100) :
    ∃ K : ℤ, l.sum = (K : ℚ) / 100 := by
  induction l with
  | nil => exact ⟨0, by simp⟩
  | cons a t ih =>
    obtain ⟨k, hk⟩ := h a (List.mem_cons_self a t)
    obtain ⟨K, hK⟩ := ih (fun x hx => h x (List.mem_cons_of_mem a hx))
    exact ⟨k + K, by rw [List.sum_cons, hk, hK]; push_cast; ring⟩

theorem totalCostBasisAt_cents (ledger : List Tx) (d : ℕ) :
    ∃ K : ℤ, totalCostBasisAt ledger d = (K : ℚ) / 100 := by
  apply sum_cents
  intro x hx
  simp only [totalCostBasisAt, List.mem_map] at hx
  obtain ⟨pid, _, hpid⟩ := hx
  obtain ⟨y, hy⟩ : ∃ y, (holdingFor ledger d pid).total_cost_basis = round_price y := ⟨_, rfl⟩
  rw [← hpid, hy]
  exact round_price_eq_cents y

/-! ## C1 — negative derived quantities and `LedgerIntegrityError` -/

/-- C1 counterexample: on a ledger that disposes 5 never-acquired units,
`calculate_holdings_at_date` does not surface any error: it returns the
holdings map containing the negative `cost_basis_quantity`/`sealed_quantity`,
and the daily-valuation pass over that ledger completes normally.  No
`LedgerIntegrityError` exists anywhere in the source. -/
theorem C1_counterexample :
    calculate_holdings_at_date overSellLedger 1 =
      [(1, { product_name := "X", cost_basis_quantity := -5, sealed_quantity := -5,
             total_cost_basis := -5, average_cost_per_unit := 0,
             total_bought := 0, total_sold := 5, total_opened := 0 })] ∧
    (holdingFor overSellLedger 1 1).cost_basis_quantity < 0 ∧
    dailyRows overSellLedger emptyStore 1 =
      [{ date := 1, total_cost_basis := -5, total_market_value := 0,
         unrealized_pnl := 5, cumulative_realized_pnl := 5 }] := by
  refine ⟨?_, ?_, ?_⟩
  · simp [calculate_holdings_at_date, holdingsKeys, holdingFor, overSellLedger,
      productTxs, relevantTxs, amountOf, costOf, round_price]
    norm_num [Int.floor_eq_iff]
  · simp [holdingFor, overSellLedger, productTxs, relevantTxs]
  · simp [dailyRows, buildAxis, sortedDedup, insertSortedU, PStore.dates, emptyStore,
      overSellLedger, dailyRowsAux, mkRow, totalCostBasisAt, totalMarketValueAt,
      holdingsKeys, holdingFor, productTxs, relevantTxs, amountOf, costOf,
      realizedOnDate, proceedsOf, avgCostAtSale, priorBuys, mvContrib, resolvedPrice,
      get_market_price, get_market_priceE, PStore.lookup, fallbackPrice, round_price]
    norm_num [Int.floor_eq_iff]

/-- C1 amended: the holdings computation performs no integrity check at all —
for every ledger, cutoff and item it returns `cost_basis_quantity =
acquired - disposed` and `sealed_quantity = acquired - disposed - withdrawn`
as-is, negative values included; no error is raised and the recompilation
pass is never aborted on their account. -/
theorem C1_amended (ledger : List Tx) (cutoff : ℕ) (pid : ℕ) :
    (holdingFor ledger cutoff pid).cost_basis_quantity =
      ((((productTxs ledger cutoff pid).filter
          (fun t => t.transaction_type = TxType.BUY)).map (fun t => t.quantity)).sum : ℤ) -
      ((((productTxs ledger cutoff pid).filter
          (fun t => t.transaction_type = TxType.SELL)).map (fun t => t.quantity)).sum : ℤ) ∧
    (holdingFor ledger cutoff pid).sealed_quantity =
      (holdingFor ledger cutoff pid).cost_basis_quantity -
      ((((productTxs ledger cutoff pid).filter
          (fun t => t.transaction_type = TxType.OPEN)).map (fun t => t.quantity)).sum : ℤ) := by
  constructor <;> simp [holdingFor, Function.comp_def]

/-! ## C4 — Scenario A-C concrete holdings -/

/-- C4: on the Scenario A-C ledger (BUY 10 @ $5 on day 1, SELL 4 @ $8 on
day 10, OPEN 2 on day 15), the holdings at cutoff day 10 are
total_acquired 10, total_disposed 4, cost_basis_quantity 6, total cost
basis $18.00, average cost $5.00; the realized P&L recorded for day 10 is
$32 - 4×$5 = $12; and at cutoff day 15 sealed_quantity is 4 while
cost_basis_quantity stays 6 and the cost basis stays $18.00. -/
theorem C4_scenario :
    calculate_holdings_at_date scenLedger 10 =
      [(1, { product_name := "Booster Box", cost_basis_quantity := 6, sealed_quantity := 6,
             total_cost_basis := 18, average_cost_per_unit := 5,
             total_bought := 10, total_sold := 4, total_opened := 0 })] ∧
    realizedOnDate scenLedger 10 = 12 ∧
    calculate_holdings_at_date scenLedger 15 =
      [(1, { product_name := "Booster Box", cost_basis_quantity := 6, sealed_quantity := 4,
             total_cost_basis := 18, average_cost_per_unit := 5,
             total_bought := 10, total_sold := 4, total_opened := 2 })] := by
  refine ⟨?_, ?_, ?_⟩
  · simp [calculate_holdings_at_date, holdingsKeys, holdingFor, scenLedger,
      productTxs, relevantTxs, amountOf, costOf, round_price]
    norm_num [Int.floor_eq_iff]
  · simp [realizedOnDate, scenLedger, proceedsOf, avgCostAtSale, priorBuys, costOf]
    norm_num
  · simp [calculate_holdings_at_date, holdingsKeys, holdingFor, scenLedger,
      productTxs, relevantTxs, amountOf, costOf, round_price]
    norm_num [Int.floor_eq_iff]

/-! ## C8 — the two cost-basis formulas disagree -/

/-- C8: on a ledger with a partial disposal at a price different from the
average purchase cost (BUY 10 @ $5, SELL 4 @ $8), the holdings-table
formula of `database.update_portfolio_holdings` gives 6 × $5 = $30 while
the recompiler's net-proceeds formula gives $50 - $32 = $18: the two
code paths are not extensionally equal. -/
theorem C8_formulas_diverge :
    update_portfolio_holdings_cost_basis partialSaleLedger = 30 ∧
    (holdingFor partialSaleLedger 2 1).total_cost_basis = 18 ∧
    update_portfolio_holdings_cost_basis partialSaleLedger ≠
      (holdingFor partialSaleLedger 2 1).total_cost_basis := by
  have h1 : update_portfolio_holdings_cost_basis partialSaleLedger = 30 := by
    simp [update_portfolio_holdings_cost_basis, partialSaleLedger, costOf]
    norm_num
  have h2 : (holdingFor partialSaleLedger 2 1).total_cost_basis = 18 := by
    simp [holdingFor, partialSaleLedger, productTxs, relevantTxs, amountOf, costOf, round_price]
    norm_num [Int.floor_eq_iff]
  refine ⟨h1, h2, ?_⟩
  rw [h1, h2]
  norm_num

/-! ## C6 — withdrawal neutrality -/

theorem productTxs_append (l1 l2 : List Tx) (cutoff pid : ℕ) :
    productTxs (l1 ++ l2) cutoff pid = productTxs l1 cutoff pid ++ productTxs l2 cutoff pid := by
  simp [productTxs, relevantTxs, List.filter_append]

theorem opens_filter_ttype (opens : List Tx) (cutoff pid : ℕ)
    (hop : ∀ t ∈ opens, t.transaction_type = TxType.OPEN)
    (ty : TxType) (hty : ty ≠ TxType.OPEN) :
    (productTxs opens cutoff pid).filter (fun t => t.transaction_type = ty) = [] := by
  rw [List.filter_eq_nil_iff]
  intro t ht
  simp only [productTxs, relevantTxs, List.mem_filter] at ht
  simp only [hop t ht.1.1, decide_eq_true_eq]
  intro hco
  exact hty hco.symm

theorem opens_filter_open (opens : List Tx) (cutoff pid : ℕ)
    (hop : ∀ t ∈ opens, t.transaction_type = TxType.OPEN) :
    (productTxs opens cutoff pid).filter (fun t => t.transaction_type = TxType.OPEN) =
      productTxs opens cutoff pid := by
  rw [List.filter_eq_self]
  intro t ht
  simp only [productTxs, relevantTxs, List.mem_filter] at ht
  simp [hop t ht.1.1]

/-- C6: appending WITHDRAW (OPEN) entries to a ledger leaves every item's
cost_basis_quantity, total_cost_basis, average_cost_per_unit,
total_acquired (total_bought) and total_disposed (total_sold) unchanged in
the holdings computed at any cutoff; only sealed_quantity decreases, by the
summed withdrawn quantity of the appended entries dated ≤ cutoff for that
item. -/
theorem C6_withdrawal_neutral (ledger : List Tx) (cutoff pid : ℕ) (opens : List Tx)
    (hop : ∀ t ∈ opens, t.transaction_type = TxType.OPEN) :
    (holdingFor (ledger ++ opens) cutoff pid).cost_basis_quantity =
      (holdingFor ledger cutoff pid).cost_basis_quantity ∧
    (holdingFor (ledger ++ opens) cutoff pid).total_cost_basis =
      (holdingFor ledger cutoff pid).total_cost_basis ∧
    (holdingFor (ledger ++ opens) cutoff pid).average_cost_per_unit =
      (holdingFor ledger cutoff pid).average_cost_per_unit ∧
    (holdingFor (ledger ++ opens) cutoff pid).total_bought =
      (holdingFor ledger cutoff pid).total_bought ∧
    (holdingFor (ledger ++ opens) cutoff pid).total_sold =
      (holdingFor ledger cutoff pid).total_sold ∧
    (holdingFor (ledger ++ opens) cutoff pid).sealed_quantity =
      (holdingFor ledger cutoff pid).sealed_quantity -
        (((productTxs opens cutoff pid).map (fun t => t.quantity)).sum : ℤ) := by
  have hb := opens_filter_ttype opens cutoff pid hop TxType.BUY (by simp)
  have hs := opens_filter_ttype opens cutoff pid hop TxType.SELL (by simp)
  have ho := opens_filter_open opens cutoff pid hop
  refine ⟨?_, ?_, ?_, ?_, ?_, ?_⟩ <;>
  · simp [holdingFor, productTxs_append, List.filter_append, hb, hs, ho, Function.comp_def]
    try ring

/-- C6 witness: the theorem applied to the Scenario ledger with one more
withdrawal of 1 unit on day 12, at cutoff 15. -/
theorem C6_witness :
    (holdingFor (scenLedger ++ [⟨1, "Booster Box", TxType.OPEN, 1, none, none, 12⟩]) 15 1).cost_basis_quantity =
      (holdingFor scenLedger 15 1).cost_basis_quantity ∧
    (holdingFor (scenLedger ++ [⟨1, "Booster Box", TxType.OPEN, 1, none, none, 12⟩]) 15 1).total_cost_basis =
      (holdingFor scenLedger 15 1).total_cost_basis ∧
    (holdingFor (scenLedger ++ [⟨1, "Booster Box", TxType.OPEN, 1, none, none, 12⟩]) 15 1).average_cost_per_unit =
      (holdingFor scenLedger 15 1).average_cost_per_unit ∧
    (holdingFor (scenLedger ++ [⟨1, "Booster Box", TxType.OPEN, 1, none, none, 12⟩]) 15 1).total_bought =
      (holdingFor scenLedger 15 1).total_bought ∧
    (holdingFor (scenLedger ++ [⟨1, "Booster Box", TxType.OPEN, 1, none, none, 12⟩]) 15 1).total_sold =
      (holdingFor scenLedger 15 1).total_sold ∧
    (holdingFor (scenLedger ++ [⟨1, "Booster Box", TxType.OPEN, 1, none, none, 12⟩]) 15 1).sealed_quantity =
      (holdingFor scenLedger 15 1).sealed_quantity -
        (((productTxs [⟨1, "Booster Box", TxType.OPEN, 1, none, none, 12⟩] 15 1).map
          (fun t => t.quantity)).sum : ℤ) :=
  C6_withdrawal_neutral scenLedger 15 1 [⟨1, "Booster Box", TxType.OPEN, 1, none, none, 12⟩]
    (by intro t ht; simp only [List.mem_singleton] at ht; subst ht; rfl)

/-! ## C5 — realized P&L uses the acquisition-only average cost -/

theorem amountOf_eq_costOf (ledger : List Tx) (hwf : WFAmounts ledger) (t : Tx)
    (ht : t ∈ ledger)
    (hty : t.transaction_type = TxType.BUY ∨ t.transaction_type = TxType.SELL) :
    amountOf t = costOf t := by
  obtain ⟨p, hp, hta⟩ := hwf t ht hty
  rcases hta with h | h <;> simp [amountOf, costOf, h, hp]

theorem avgCostAtSale_eq_spec (ledger : List Tx) (hwf : WFAmounts ledger) (d pid : ℕ) :
    avgCostAtSale ledger d pid = spec_avg_cost ledger d pid := by
  have hmap : (priorBuys ledger d pid).map costOf = (priorBuys ledger d pid).map amountOf := by
    apply List.map_congr_left
    intro t ht
    simp only [priorBuys, List.mem_filter, decide_eq_true_eq] at ht
    exact (amountOf_eq_costOf ledger hwf t ht.1 (Or.inl ht.2.2.1)).symm
  simp only [avgCostAtSale, spec_avg_cost, hmap]

/-- C5: for every well-formed ledger (ACQUIRE/DISPOSE rows carry a unit
price, and `total_amount`, when present, equals `quantity × unit_price` —
the data-model invariant of spec §3), every date `d` and item: the average
cost the driver charges a sale equals the acquisition-only
`acquire_amount / total_acquired` (0 when nothing was acquired by `d`,
independent of disposals), and the realized P&L the driver adds on `d` is
exactly the sum over the DISPOSE entries dated `d` of
`proceeds - quantity × avgCostAtSale`. -/
theorem C5_realized_avg (ledger : List Tx) (hwf : WFAmounts ledger) (d pid : ℕ) :
    avgCostAtSale ledger d pid = spec_avg_cost ledger d pid ∧
    (((priorBuys ledger d pid).map (fun t => t.quantity)).sum = 0 →
      avgCostAtSale ledger d pid = 0) ∧
    realizedOnDate ledger d =
      ((ledger.filter (fun t => t.transaction_date = d ∧ t.transaction_type = TxType.SELL)).map
        (fun t => proceedsOf t - (t.quantity : ℚ) * spec_avg_cost ledger d t.product_id)).sum := by
  refine ⟨avgCostAtSale_eq_spec ledger hwf d pid, ?_, ?_⟩
  · intro h0
    simp [avgCostAtSale, h0]
  · unfold realizedOnDate
    congr 1
    apply List.map_congr_left
    intro t _
    rw [avgCostAtSale_eq_spec ledger hwf d t.product_id]

/-- C5 witness: the theorem applied to the Scenario ledger on the disposal
date, day 10. -/
theorem C5_witness :
    avgCostAtSale scenLedger 10 1 = spec_avg_cost scenLedger 10 1 ∧
    realizedOnDate scenLedger 10 =
      ((scenLedger.filter (fun t => t.transaction_date = 10 ∧ t.transaction_type = TxType.SELL)).map
        (fun t => proceedsOf t - (t.quantity : ℚ) * spec_avg_cost scenLedger 10 t.product_id)).sum := by
  have hwf : WFAmounts scenLedger := by
    intro t ht hty
    simp only [scenLedger, List.mem_cons, List.not_mem_nil, or_false] at ht
    rcases ht with rfl | rfl | rfl
    · exact ⟨5, rfl, Or.inr (by norm_num)⟩
    · exact ⟨8, rfl, Or.inr (by norm_num)⟩
    · simp at hty
  exact ⟨(C5_realized_avg scenLedger hwf 10 1).1, (C5_realized_avg scenLedger hwf 10 1).2.2⟩

/-! ## C2 — what the summary is derived from -/

/-- C2 counterexample: after recompiling the ledger "BUY 2 @ $5, OPEN 2"
(cost basis $10, zero sealed units), the summary's total_cost_basis is 0 —
summed from the holdings table over rows with `current_quantity > 0` —
while the latest DailyValuation row carries total_cost_basis $10.  The
summary's cost basis is not derived from the latest daily row and disagrees
with it. -/
theorem C2_counterexample :
    (get_portfolio_summary openedOutLedger emptyStore 1).total_cost_basis = 0 ∧
    latestRow? (dailyRows openedOutLedger emptyStore 1) =
      some { date := 1, total_cost_basis := 10, total_market_value := 0,
             unrealized_pnl := -10, cumulative_realized_pnl := 0 } ∧
    (0 : ℚ) ≠ 10 := by
  refine ⟨?_, ?_, by norm_num⟩
  · simp [get_portfolio_summary, calculate_holdings_at_date, holdingsKeys, holdingFor,
      openedOutLedger, emptyStore, productTxs, relevantTxs, amountOf, costOf, round_price]
  · simp [dailyRows, buildAxis, sortedDedup, insertSortedU, PStore.dates, emptyStore,
      openedOutLedger, dailyRowsAux, mkRow, totalCostBasisAt, totalMarketValueAt,
      holdingsKeys, holdingFor, productTxs, relevantTxs, amountOf, costOf,
      realizedOnDate, proceedsOf, avgCostAtSale, priorBuys, mvContrib, resolvedPrice,
      get_market_price, get_market_priceE, PStore.lookup, fallbackPrice, round_price,
      latestRow?]
    norm_num [Int.floor_eq_iff]

/-- C2 amended: the summary's current_market_value and unrealized_pnl are
read from the latest DailyValuation row, but its total_cost_basis is summed
from the ItemHoldings table restricted to items with positive sealed
quantity — items whose sealed quantity reached 0 (e.g. fully opened) drop
out, so it can differ from the latest row's total_cost_basis. -/
theorem C2_amended (ledger : List Tx) (s : PStore) (today : ℕ) (r : DailyRow)
    (h : latestRow? (dailyRows ledger s today) = some r) :
    (get_portfolio_summary ledger s today).current_market_value = r.total_market_value ∧
    (get_portfolio_summary ledger s today).unrealized_pnl = r.unrealized_pnl ∧
    (get_portfolio_summary ledger s today).total_cost_basis =
      (((calculate_holdings_at_date ledger today).filter
        (fun pr => 0 < pr.2.sealed_quantity)).map (fun pr => pr.2.total_cost_basis)).sum := by
  refine ⟨?_, ?_, ?_⟩ <;> simp [get_portfolio_summary, h]

/-- C2 witness: the amended theorem applied to the opened-out ledger. -/
theorem C2_witness :
    (get_portfolio_summary openedOutLedger emptyStore 1).current_market_value =
      ({ date := 1, total_cost_basis := 10, total_market_value := 0,
         unrealized_pnl := -10, cumulative_realized_pnl := 0 } : DailyRow).total_market_value ∧
    (get_portfolio_summary openedOutLedger emptyStore 1).unrealized_pnl =
      ({ date := 1, total_cost_basis := 10, total_market_value := 0,
         unrealized_pnl := -10, cumulative_realized_pnl := 0 } : DailyRow).unrealized_pnl ∧
    (get_portfolio_summary openedOutLedger emptyStore 1).total_cost_basis =
      (((calculate_holdings_at_date openedOutLedger 1).filter
        (fun pr => 0 < pr.2.sealed_quantity)).map (fun pr => pr.2.total_cost_basis)).sum :=
  C2_amended openedOutLedger emptyStore 1 _ (by
    simp [dailyRows, buildAxis, sortedDedup, insertSortedU, PStore.dates, emptyStore,
      openedOutLedger, dailyRowsAux, mkRow, totalCostBasisAt, totalMarketValueAt,
      holdingsKeys, holdingFor, productTxs, relevantTxs, amountOf, costOf,
      realizedOnDate, proceedsOf, avgCostAtSale, priorBuys, mvContrib, resolvedPrice,
      get_market_price, get_market_priceE, PStore.lookup, fallbackPrice, round_price,
      latestRow?]
    norm_num [Int.floor_eq_iff])

/-! ## C3 — stored unrealized P&L versus difference of stored totals -/

/-- C3 counterexample: one unit bought for $0.01 and priced at $0.005.
The stored market value rounds the half-cent up to $0.01, so stored
mv − stored cb = 0.00, but the stored unrealized_pnl is the rounding of
the unrounded difference −$0.005, i.e. −$0.01 (ties round away from zero):
the stored unrealized_pnl disagrees with the difference of the separately
rounded totals. -/
theorem C3_counterexample :
    dailyRows centLedger halfCentStore 1 =
      [{ date := 1, total_cost_basis := 1/100, total_market_value := 1/100,
         unrealized_pnl := -(1/100), cumulative_realized_pnl := 0 }] ∧
    (-(1/100) : ℚ) ≠ 1/100 - 1/100 := by
  refine ⟨?_, by norm_num⟩
  simp [dailyRows, buildAxis, sortedDedup, insertSortedU, PStore.dates, halfCentStore,
    centLedger, dailyRowsAux, mkRow, totalCostBasisAt, totalMarketValueAt,
    holdingsKeys, holdingFor, productTxs, relevantTxs, amountOf, costOf,
    realizedOnDate, proceedsOf, avgCostAtSale, priorBuys, mvContrib, resolvedPrice,
    get_market_price, get_market_priceE, PStore.lookup, fallbackPrice, round_price]
  norm_num [Int.floor_eq_iff]

theorem mem_dailyRowsAux (ledger : List Tx) (s : PStore) (axis : List ℕ) :
    ∀ (ds : List ℕ) (cum : ℚ) (r : DailyRow), r ∈ dailyRowsAux ledger s axis ds cum →
      ∃ d cum2, r = mkRow ledger s axis d cum2 := by
  intro ds
  induction ds with
  | nil => intro cum r hr; simp [dailyRowsAux] at hr
  | cons x xs ih =>
    intro cum r hr
    rcases List.mem_cons.mp hr with h | h
    · exact ⟨x, cum + realizedOnDate ledger x, h⟩
    · exact ih _ r h

/-- C3 amended: every stored row's unrealized_pnl is the half-up rounding of
(unrounded total market value − the per-item-rounded cost-basis sum); this
equals stored mv − stored cb whenever the unrounded market value is
nonnegative and at least the cost basis, but a negative half-cent difference
coinciding with a half-cent market-value tie rounds the two sides in
opposite directions (ties go away from zero), making them differ by one
cent. -/
theorem C3_amended (ledger : List Tx) (s : PStore) (today : ℕ) (r : DailyRow)
    (hr : r ∈ dailyRows ledger s today) :
    r.unrealized_pnl =
      round_price (totalMarketValueAt ledger s (buildAxis s ledger today) r.date -
        totalCostBasisAt ledger r.date) ∧
    (0 ≤ totalMarketValueAt ledger s (buildAxis s ledger today) r.date →
      totalCostBasisAt ledger r.date ≤
        totalMarketValueAt ledger s (buildAxis s ledger today) r.date →
      r.unrealized_pnl = r.total_market_value - r.total_cost_basis) := by
  obtain ⟨d, cum2, rfl⟩ := mem_dailyRowsAux ledger s (buildAxis s ledger today)
    (buildAxis s ledger today) 0 r hr
  have hdate : (mkRow ledger s (buildAxis s ledger today) d cum2).date = d := rfl
  rw [hdate]
  constructor
  · rfl
  · intro h0 h1
    obtain ⟨K, hK⟩ := totalCostBasisAt_cents ledger d
    show round_price (totalMarketValueAt ledger s (buildAxis s ledger today) d -
        totalCostBasisAt ledger d) =
      round_price (totalMarketValueAt ledger s (buildAxis s ledger today) d) -
        round_price (totalCostBasisAt ledger d)
    rw [hK] at h1 ⊢
    rw [round_price_cents K, round_price_sub_cents _ K h0 h1]

/-- C3 witness: the amended theorem applied to the day-1 row of the
gap-store scenario, where market value $14 exceeds cost basis $10. -/
theorem C3_witness :
    (0 : ℚ) ≤ totalMarketValueAt gapLedger gapStore (buildAxis gapStore gapLedger 3) 1 ∧
    totalCostBasisAt gapLedger 1 ≤
      totalMarketValueAt gapLedger gapStore (buildAxis gapStore gapLedger 3) 1 ∧
    (⟨1, 10, 14, 4, 0⟩ : DailyRow).unrealized_pnl =
      (⟨1, 10, 14, 4, 0⟩ : DailyRow).total_market_value -
      (⟨1, 10, 14, 4, 0⟩ : DailyRow).total_cost_basis := by
  have hmv : totalMarketValueAt gapLedger gapStore (buildAxis gapStore gapLedger 3) 1 = 14 := by
    simp [buildAxis, sortedDedup, insertSortedU, PStore.dates, gapStore, gapLedger,
      totalMarketValueAt, holdingsKeys, holdingFor, productTxs, relevantTxs, amountOf,
      costOf, mvContrib, resolvedPrice, get_market_price, get_market_priceE,
      PStore.lookup, fallbackPrice]
    norm_num
  have hcb : totalCostBasisAt gapLedger 1 = 10 := by
    simp [totalCostBasisAt, holdingsKeys, holdingFor, gapLedger, productTxs,
      relevantTxs, amountOf, costOf, round_price]
    norm_num [Int.floor_eq_iff]
  have hmem : (⟨1, 10, 14, 4, 0⟩ : DailyRow) ∈ dailyRows gapLedger gapStore 3 := by
    simp [dailyRows, buildAxis, sortedDedup, insertSortedU, PStore.dates, gapStore,
      gapLedger, dailyRowsAux, mkRow, totalCostBasisAt, totalMarketValueAt,
      holdingsKeys, holdingFor, productTxs, relevantTxs, amountOf, costOf,
      realizedOnDate, proceedsOf, avgCostAtSale, priorBuys, mvContrib, resolvedPrice,
      get_market_price, get_market_priceE, PStore.lookup, fallbackPrice, round_price]
    norm_num [Int.floor_eq_iff]
  have h := C3_amended gapLedger gapStore 3 _ hmem
  refine ⟨by rw [hmv]; norm_num, by rw [hmv, hcb]; norm_num, ?_⟩
  exact h.2 (by rw [hmv]; norm_num) (by rw [hmv, hcb]; norm_num)

/-! ## C7 — price fallback -/

/-- C7 counterexample: a snapshot on day 1 prices the product at $5, but the
only transaction is on day 2, so day 1 is filtered out of the evaluation
axis.  On day 3 (today) there is no snapshot; the claim's resolution over
"available snapshot dates earlier than d" would return day 1's $5 and a
market value of 1 × $5, but the driver scans only the axis dates and finds
nothing: both rows carry market value 0. -/
theorem C7_counterexample :
    dailyRows day2Ledger day1Store 3 =
      [{ date := 2, total_cost_basis := 5, total_market_value := 0,
         unrealized_pnl := -5, cumulative_realized_pnl := 0 },
       { date := 3, total_cost_basis := 5, total_market_value := 0,
         unrealized_pnl := -5, cumulative_realized_pnl := 0 }] ∧
    spec_priceOn day1Store 1 3 = some 5 ∧
    (holdingFor day2Ledger 3 1).sealed_quantity = 1 ∧
    ((1 : ℚ) * 5 ≠ 0) := by
  refine ⟨?_, ?_, ?_, by norm_num⟩
  · simp [dailyRows, buildAxis, sortedDedup, insertSortedU, PStore.dates, day1Store,
      day2Ledger, dailyRowsAux, mkRow, totalCostBasisAt, totalMarketValueAt,
      holdingsKeys, holdingFor, productTxs, relevantTxs, amountOf, costOf,
      realizedOnDate, proceedsOf, avgCostAtSale, priorBuys, mvContrib, resolvedPrice,
      get_market_price, get_market_priceE, PStore.lookup, fallbackPrice, round_price]
    norm_num [Int.floor_eq_iff]
  · simp [spec_priceOn, sortedDedup, insertSortedU, PStore.dates, day1Store,
      get_market_price, get_market_priceE, PStore.lookup, fallbackPrice]
  · simp [holdingFor, day2Ledger, productTxs, relevantTxs]

/-- C7 amended: the fallback scan returns the first date with a non-null
price along the list it is given — which in the driver is the
**evaluation-axis** dates `≤ d` in descending order (snapshot dates before
the earliest transaction date are not on the axis and are never consulted),
not all snapshot-store dates.  The day-1/day-3 example does hold when
holdings start by day 1: with snapshots on days 1 ($7) and 3 ($9) and
ownership from day 1, the day-2 row's market value is 1 sealed unit ×
day 1's $7. -/
theorem C7_amended (s : PStore) (pid : ℕ) (ds1 : List ℕ) (d2 : ℕ) (ds2 : List ℕ) (p : ℚ)
    (h1 : ∀ x ∈ ds1, get_market_price s pid x = none)
    (h2 : get_market_price s pid d2 = some p) :
    fallbackPrice s pid (ds1 ++ d2 :: ds2) = some p ∧
    dailyRows gapLedger gapStore 3 =
      [{ date := 1, total_cost_basis := 10, total_market_value := 14,
         unrealized_pnl := 4, cumulative_realized_pnl := 0 },
       { date := 2, total_cost_basis := 4, total_market_value := 7,
         unrealized_pnl := 3, cumulative_realized_pnl := 1 },
       { date := 3, total_cost_basis := 4, total_market_value := 9,
         unrealized_pnl := 5, cumulative_realized_pnl := 1 }] := by
  constructor
  · induction ds1 with
    | nil => simp [fallbackPrice, h2]
    | cons x xs ih =>
      have hx := h1 x (List.mem_cons_self x xs)
      simp only [List.cons_append, fallbackPrice, hx]
      exact ih (fun y hy => h1 y (List.mem_cons_of_mem x hy))
  · simp [dailyRows, buildAxis, sortedDedup, insertSortedU, PStore.dates, gapStore,
      gapLedger, dailyRowsAux, mkRow, totalCostBasisAt, totalMarketValueAt,
      holdingsKeys, holdingFor, productTxs, relevantTxs, amountOf, costOf,
      realizedOnDate, proceedsOf, avgCostAtSale, priorBuys, mvContrib, resolvedPrice,
      get_market_price, get_market_priceE, PStore.lookup, fallbackPrice, round_price]
    norm_num [Int.floor_eq_iff]

/-- C7 witness: the amended theorem applied to the driver's actual day-2
fallback scan in the gap scenario — the scanned list is `[2, 1]` (axis
dates ≤ 2, descending), day 2 has no snapshot, day 1 prices at $7. -/
theorem C7_witness :
    fallbackPrice gapStore 1 ([2] ++ 1 :: []) = some 7 ∧
    dailyRows gapLedger gapStore 3 =
      [{ date := 1, total_cost_basis := 10, total_market_value := 14,
         unrealized_pnl := 4, cumulative_realized_pnl := 0 },
       { date := 2, total_cost_basis := 4, total_market_value := 7,
         unrealized_pnl := 3, cumulative_realized_pnl := 1 },
       { date := 3, total_cost_basis := 4, total_market_value := 9,
         unrealized_pnl := 5, cumulative_realized_pnl := 1 }] :=
  C7_amended gapStore 1 [2] 1 [] 7
    (by
      intro x hx
      simp only [List.mem_singleton] at hx
      subst hx
      simp [get_market_price, get_market_priceE, PStore.lookup, gapStore])
    (by simp [get_market_price, get_market_priceE, PStore.lookup, gapStore])

/-! ## C9 — failure semantics of the daily-valuation pass -/

theorem mem_insertSortedU (x a : ℕ) (l : List ℕ) :
    a ∈ insertSortedU x l ↔ a = x ∨ a ∈ l := by
  induction l with
  | nil => simp [insertSortedU]
  | cons y ys ih =>
    unfold insertSortedU
    by_cases h1 : x < y
    · simp [h1]
    · by_cases h2 : x = y
      · subst h2
        simp [h1]
      · simp [h1, h2, ih]
        tauto

theorem mem_sortedDedup (l : List ℕ) (a : ℕ) : a ∈ sortedDedup l ↔ a ∈ l := by
  induction l with
  | nil => simp [sortedDedup]
  | cons x xs ih =>
    show a ∈ insertSortedU x (sortedDedup xs) ↔ _
    rw [mem_insertSortedU, ih]
    simp

theorem tx_date_mem_buildAxis (s : PStore) (ledger : List Tx) (today : ℕ) (t : Tx)
    (ht : t ∈ ledger) : t.transaction_date ∈ buildAxis s ledger today := by
  have hd : t.transaction_date ∈ ledger.map (fun t2 => t2.transaction_date) :=
    List.mem_map_of_mem _ ht
  have hcomb : t.transaction_date ∈
      sortedDedup (s.dates ++ ledger.map (fun t2 => t2.transaction_date) ++ [today]) := by
    rw [mem_sortedDedup]
    simp only [List.mem_append]
    exact Or.inl (Or.inr hd)
  cases hmin : (ledger.map (fun t2 => t2.transaction_date)).min? with
  | none =>
    simp only [buildAxis, hmin]
    exact hcomb
  | some e =>
    obtain ⟨_, hle⟩ := List.min?_eq_some_iff'.mp hmin
    have hf : t.transaction_date ∈
        (sortedDedup (s.dates ++ ledger.map (fun t2 => t2.transaction_date) ++ [today])).filter
          (fun d => e ≤ d) :=
      List.mem_filter.mpr ⟨hcomb, by simpa using hle _ hd⟩
    simp only [buildAxis, hmin]
    split
    · exact hf
    · exact List.mem_cons_of_mem _ hf

theorem rawPassGo_error (rledger : List RawTx) (cl : List Tx) (s : PStore) (axis : List ℕ)
    (d : ℕ) (e' : String) (hchk : rawCheckAt rledger d = Except.error e') :
    ∀ (ds : List ℕ) (cum : ℚ), d ∈ ds →
      ∃ e, rawPassGo rledger cl s axis ds cum = Except.error e := by
  intro ds
  induction ds with
  | nil => intro cum h; simp at h
  | cons x xs ih =>
    intro cum hmem
    rcases List.mem_cons.mp hmem with rfl | hx
    · exact ⟨e', by simp [rawPassGo, hchk]⟩
    · cases hc : rawCheckAt rledger x with
      | error e2 => exact ⟨e2, by simp [rawPassGo, hc]⟩
      | ok u =>
        obtain ⟨e, he⟩ := ih (cum + realizedOnDate cl x) hx
        exact ⟨e, by simp [rawPassGo, hc, he]⟩

/-- C9 amended: a ledger row whose amount cells the holdings computation
cannot read (a corrupt BUY/SELL amount) aborts the whole daily-valuation
pass with an error — the holdings computation runs outside every exception
handler, its date is always on the evaluation axis, and the single
enclosing transaction is only committed after the loop, so no partial rows
are written.  (A corrupt **price file**, by contrast, is absorbed exactly
like a missing one — see the counterexample.) -/
theorem C9_amended (rledger : List RawTx) (s : PStore) (today : ℕ) (t : RawTx)
    (ht : t ∈ rledger) (hc : t.corruptAmount = true) :
    ∃ e, rawDailyPassE rledger s today = Except.error e := by
  have hdate : t.transaction_date ∈ buildAxis s (rledger.map RawTx.toTx) today := by
    have h1 : RawTx.toTx t ∈ rledger.map RawTx.toTx := List.mem_map_of_mem _ ht
    exact tx_date_mem_buildAxis s (rledger.map RawTx.toTx) today _ h1
  have hchk : rawCheckAt rledger t.transaction_date =
      Except.error "could not convert string to float" := by
    unfold rawCheckAt
    rw [if_pos]
    exact List.any_eq_true.mpr ⟨t, List.mem_filter.mpr ⟨ht, by simp⟩, hc⟩
  exact rawPassGo_error rledger (rledger.map RawTx.toTx) s
    (buildAxis s (rledger.map RawTx.toTx) today) t.transaction_date _ hchk
    (buildAxis s (rledger.map RawTx.toTx) today) 0 hdate

/-- C9 witness: a SELL row whose `total_amount` cell holds the unparsable
text "abc" aborts the pass. -/
theorem C9_witness :
    ∃ e, rawDailyPassE corruptRawLedger emptyStore 3 = Except.error e :=
  C9_amended corruptRawLedger emptyStore 3
    ⟨1, "X", TxType.SELL, 1, RawVal.num 8, RawVal.text "abc", 2⟩
    (by simp [corruptRawLedger]) rfl

/-- C9 counterexample: the claim says only **missing** price files are
absorbed as non-errors, but a price file that exists and cannot be read is
absorbed identically: over the clean one-purchase ledger, the pass with a
corrupt day-1 price file completes with exactly the same rows as the pass
with no price file at all — no abort, the unreadable file becomes a price
gap. -/
theorem C9_counterexample :
    rawDailyPassE cleanRawLedger corruptFileStore 1 =
      Except.ok [{ date := 1, total_cost_basis := 5, total_market_value := 0,
                   unrealized_pnl := -5, cumulative_realized_pnl := 0 }] ∧
    rawDailyPassE cleanRawLedger emptyStore 1 =
      Except.ok [{ date := 1, total_cost_basis := 5, total_market_value := 0,
                   unrealized_pnl := -5, cumulative_realized_pnl := 0 }] := by
  constructor <;>
  · simp [rawDailyPassE, rawPassGo, rawCheckAt, RawTx.corruptAmount, RawVal.isText,
      RawVal.isNull, RawTx.toTx, RawVal.toOpt, cleanRawLedger, corruptFileStore,
      emptyStore, buildAxis, sortedDedup, insertSortedU, PStore.dates,
      dailyRowsAux, mkRow, totalCostBasisAt, totalMarketValueAt,
      holdingsKeys, holdingFor, productTxs, relevantTxs, amountOf, costOf,
      realizedOnDate, proceedsOf, avgCostAtSale, priorBuys, mvContrib, resolvedPrice,
      get_market_price, get_market_priceE, PStore.lookup, fallbackPrice, round_price]
    norm_num [Int.floor_eq_iff]

/-! ## C10 — totality of the price lookup -/

/-- C10: `get_market_price` is total — every failure of the snapshot read
collapses to `none`: a missing file, an unreadable file, a missing
`productId` column, a missing `marketPrice` column, and a null price all
yield `none`; and whenever it returns a price, that price is the non-null
`marketPrice` of the first row matching the product in a table having both
columns. -/
theorem C10_price_total (s : PStore) (pid d : ℕ) :
    (s.lookup d = ParquetFile.missing → get_market_price s pid d = none) ∧
    (s.lookup d = ParquetFile.corrupt → get_market_price s pid d = none) ∧
    (∀ hp rows, s.lookup d = ParquetFile.table false hp rows →
      get_market_price s pid d = none) ∧
    (∀ rows, s.lookup d = ParquetFile.table true false rows →
      get_market_price s pid d = none) ∧
    (∀ hp rows r rest, s.lookup d = ParquetFile.table true hp rows →
      rows.filter (fun rr => rr.productId = pid) = r :: rest → r.marketPrice = none →
      get_market_price s pid d = none) ∧
    (∀ p, get_market_price s pid d = some p →
      ∃ rows r rest, s.lookup d = ParquetFile.table true true rows ∧
        rows.filter (fun rr => rr.productId = pid) = r :: rest ∧
        r.marketPrice = some p) := by
  refine ⟨?_, ?_, ?_, ?_, ?_, ?_⟩
  · intro h; simp [get_market_price, get_market_priceE, h]
  · intro h; simp [get_market_price, get_market_priceE, h]
  · intro hp rows h; simp [get_market_price, get_market_priceE, h]
  · intro rows h
    cases hf : rows.filter (fun rr => rr.productId = pid) with
    | nil => simp [get_market_price, get_market_priceE, h, hf]
    | cons r rest => simp [get_market_price, get_market_priceE, h, hf]
  · intro hp rows r rest h hf hmp
    cases hp <;> simp [get_market_price, get_market_priceE, h, hf, hmp]
  · intro p hp
    unfold get_market_price get_market_priceE at hp
    cases h : s.lookup d with
    | missing => rw [h] at hp; simp at hp
    | corrupt => rw [h] at hp; simp at hp
    | table hasPid hasPrice rows =>
      rw [h] at hp
      cases hasPid with
      | false => simp at hp
      | true =>
        simp only [Bool.true_eq_false, if_false] at hp
        cases hf : rows.filter (fun rr => rr.productId = pid) with
        | nil => rw [hf] at hp; simp at hp
        | cons r rest =>
          rw [hf] at hp
          cases hasPrice with
          | false => simp at hp
          | true =>
            simp only [Bool.true_eq_false, if_false] at hp
            cases hmp : r.marketPrice with
            | none => rw [hmp] at hp; simp at hp
            | some q =>
              rw [hmp] at hp
              simp only [Option.some.injEq] at hp
              exact ⟨rows, r, rest, rfl, hf, by rw [hmp, hp]⟩

/-- C10 witness: the theorem applied to a store whose day-1 file exists but
cannot be parsed. -/
theorem C10_witness : get_market_price corruptFileStore 7 1 = none :=
  (C10_price_total corruptFileStore 7 1).2.1 rfl

end PokemonTracker
